import Mathlib

/-!
Verification of the astrohaze Vedic astrology engine (src/python) against its
specification.  The embedding conventions:

* Python float arithmetic is modelled as exact arithmetic on `ℚ`.
* Python `x % y` (remainder with the sign of the divisor) is `pyMod`;
  Python `int(x)` (truncation toward zero) is `pyInt`.
* The dicts returned by the position functions are modelled as structures whose
  fields are the dict keys; `toDict` renders the key-value list in the order of
  the dict literal in the source.  The formatted degree string built as
  degrees-and-minutes is modelled by its pair of integers, which determines it.
* Python datetimes are rationals counting days (an integer value is a
  midnight), together with an `aware` flag mirroring `tzinfo`; comparing a
  naive with an aware datetime raises, modelled by `Except`.
* The Swiss Ephemeris calls (`swe.julday`, `swe.get_ayanamsa`, `swe.calc_ut`,
  `swe.houses`) are an external oracle, modelled by the `Ephemeris` structure.
-/

namespace Astrohaze

/-- Python `x % y` for floats: `x - y * floor (x / y)` (sign of the divisor).
`Rat.floor` is used so that the definition evaluates by kernel reduction; it
agrees with `Int.floor` (`ratFloor_eq_floor` below). -/
def pyMod (x y : ℚ) : ℚ := x - y * (((x / y).floor : ℤ) : ℚ)

/-- Python `int(x)` on a float: truncation toward zero. -/
def pyInt (q : ℚ) : ℤ := if q < 0 then -(-q).floor else q.floor

/-- The degree-formatted string of `vedic_calculator.py` (for example line 79):
the pair of the whole degrees and the whole minutes interpolated into the
string, which determines the string. -/
def fmtDeg (d : ℚ) : ℤ × ℤ := (pyInt d, pyInt (pyMod d 1 * 60))

/-- `VedicCalculator.SIGNS` (vedic_calculator.py lines 33-36). -/
def SIGNS : List String :=
  ["Aries", "Taurus", "Gemini", "Cancer", "Leo", "Virgo",
   "Libra", "Scorpio", "Sagittarius", "Capricorn", "Aquarius", "Pisces"]

/-- `VedicCalculator.NAKSHATRAS` (vedic_calculator.py lines 39-45). -/
def NAKSHATRAS : List String :=
  ["Ashwini", "Bharani", "Krittika", "Rohini", "Mrigashira", "Ardra",
   "Punarvasu", "Pushya", "Ashlesha", "Magha", "Purva Phalguni", "Uttara Phalguni",
   "Hasta", "Chitra", "Swati", "Vishakha", "Anuradha", "Jyeshtha",
   "Mula", "Purva Ashadha", "Uttara Ashadha", "Shravana", "Dhanishta", "Shatabhisha",
   "Purva Bhadrapada", "Uttara Bhadrapada", "Revati"]

/-- `VedicCalculator.NAKSHATRA_LORDS` (vedic_calculator.py line 48), the
Vimshottari Dasha sequence, shared by the Nakshatra Resolver and the Dasha
Engine. -/
def NAKSHATRA_LORDS : List String :=
  ["Ketu", "Venus", "Sun", "Moon", "Mars", "Rahu", "Jupiter", "Saturn", "Mercury"]

/-- The dict returned by `VedicCalculator.calculate_nakshatra`
(vedic_calculator.py lines 130-135). -/
structure Nak where
  nakshatra : String
  nakshatra_num : ℤ
  pada : ℤ
  lord : String
deriving DecidableEq, Inhabited

/-- `VedicCalculator.calculate_nakshatra` (vedic_calculator.py lines 123-135). -/
def calculate_nakshatra (longitude : ℚ) : Nak :=
  let nakshatra_length : ℚ := 360 / 27
  let nakshatra_num := pyInt (longitude / nakshatra_length)
  let pada := pyInt (pyMod longitude nakshatra_length / (nakshatra_length / 4)) + 1
  let lord_index := nakshatra_num % 9
  { nakshatra := NAKSHATRAS.getD nakshatra_num.toNat ""
    nakshatra_num := nakshatra_num + 1
    pada := pada
    lord := NAKSHATRA_LORDS.getD lord_index.toNat "" }

/-- The dict of a normalized position without nakshatra: keys `longitude`,
`sign`, `sign_num`, `degree`, `degree_formatted` (vedic_calculator.py
lines 74-80). -/
structure PlanetPos where
  longitude : ℚ
  sign : String
  sign_num : ℤ
  degree : ℚ
  degree_formatted : ℤ × ℤ
deriving DecidableEq, Inhabited

/-- A planet entry of the assembled chart: the normalized position with the
`nakshatra` key added (vedic_calculator.py line 167). -/
structure PlanetEntry where
  longitude : ℚ
  sign : String
  sign_num : ℤ
  degree : ℚ
  degree_formatted : ℤ × ℤ
  nakshatra : Nak
deriving DecidableEq, Inhabited

/-- Adding the `nakshatra` key to a position dict. -/
def PlanetPos.withNakshatra (p : PlanetPos) (n : Nak) : PlanetEntry :=
  ⟨p.longitude, p.sign, p.sign_num, p.degree, p.degree_formatted, n⟩

/-- The normalization of a longitude into a position dict: the body of
`VedicCalculator.calculate_planet_position` after the ephemeris query
(vedic_calculator.py lines 70-80).  This is the Position Normalizer of the
specification. -/
def normalizePos (longitude : ℚ) : PlanetPos :=
  let sign_num := pyInt (longitude / 30)
  let degree_in_sign := pyMod longitude 30
  { longitude := longitude
    sign := SIGNS.getD sign_num.toNat ""
    sign_num := sign_num + 1
    degree := degree_in_sign
    degree_formatted := fmtDeg degree_in_sign }

/-- The ephemeris provider (Swiss Ephemeris), an external oracle. -/
structure Ephemeris where
  julday : ℚ → ℚ
  ayanamsa : ℚ → ℚ
  bodyLon : ℤ → ℚ → ℚ
  ascTropical : ℚ → ℚ → ℚ → ℚ

/-- `VedicCalculator.calculate_planet_position` (vedic_calculator.py
lines 63-80): query the sidereal longitude, then normalize. -/
def calculate_planet_position (e : Ephemeris) (planet_id : ℤ) (jd : ℚ) : PlanetPos :=
  normalizePos (e.bodyLon planet_id jd)

/-- The per-planet step of the chart loop (vedic_calculator.py lines 166-168):
position plus its nakshatra. -/
def planetEntryOf (e : Ephemeris) (planet_id : ℤ) (jd : ℚ) : PlanetEntry :=
  let planet_data := calculate_planet_position e planet_id jd
  planet_data.withNakshatra (calculate_nakshatra planet_data.longitude)

/-- The normalize-plus-nakshatra composite applied to a bare longitude. -/
def planetEntry (longitude : ℚ) : PlanetEntry :=
  (normalizePos longitude).withNakshatra (calculate_nakshatra longitude)

/-- `VedicCalculator.calculate_ascendant` (vedic_calculator.py lines 82-103). -/
def calculate_ascendant (e : Ephemeris) (jd latitude longitude : ℚ) : PlanetPos :=
  let tropical_asc := e.ascTropical jd latitude longitude
  let ayanamsa := e.ayanamsa jd
  let sidereal_asc := pyMod (tropical_asc - ayanamsa) 360
  let sign_num := pyInt (sidereal_asc / 30)
  let degree_in_sign := pyMod sidereal_asc 30
  { longitude := sidereal_asc
    sign := SIGNS.getD sign_num.toNat ""
    sign_num := sign_num + 1
    degree := degree_in_sign
    degree_formatted := fmtDeg degree_in_sign }

/-- A house dict (vedic_calculator.py lines 113-119). -/
structure House where
  house : ℤ
  sign : String
  sign_num : ℤ
  degree_start : ℤ
  degree_end : ℤ
deriving DecidableEq, Inhabited

/-- `VedicCalculator.calculate_houses` (vedic_calculator.py lines 105-121). -/
def calculate_houses (e : Ephemeris) (jd latitude longitude : ℚ) : List House :=
  let ascendant := calculate_ascendant e jd latitude longitude
  let asc_sign := ascendant.sign_num - 1
  (List.range 12).map (fun i =>
    let house_sign := (asc_sign + (i : ℤ)) % 12
    { house := (i : ℤ) + 1
      sign := SIGNS.getD house_sign.toNat ""
      sign_num := house_sign + 1
      degree_start := house_sign * 30
      degree_end := (house_sign + 1) * 30 })

/-- The Ketu branch of the chart loop (vedic_calculator.py lines 150-164):
Ketu is placed 180 degrees opposite Rahu and normalized inline. -/
def ketuEntry (rahu_pos : ℚ) : PlanetEntry :=
  let ketu_long := pyMod (rahu_pos + 180) 360
  let sign_num := pyInt (ketu_long / 30)
  let degree_in_sign := pyMod ketu_long 30
  { longitude := ketu_long
    sign := SIGNS.getD sign_num.toNat ""
    sign_num := sign_num + 1
    degree := degree_in_sign
    degree_formatted := fmtDeg degree_in_sign
    nakshatra := calculate_nakshatra ketu_long }

/-! ## Divisional charts (divisional_charts.py) -/

/-- The dict returned by each divisional calculation method: keys `sign`,
`sign_num`, `degree`, `degree_formatted` (divisional_charts.py, for example
lines 65-70). -/
structure DivPos where
  sign : String
  sign_num : ℤ
  degree : ℚ
  degree_formatted : ℤ × ℤ
deriving DecidableEq, Inhabited

/-- `DivisionalCharts.CHART_INFO` (divisional_charts.py lines 15-32):
code, name, signification. -/
def CHART_INFO : List (String × String × String) :=
  [("D1", "Rasi", "Physical body, overall life"),
   ("D2", "Hora", "Wealth,财富"),
   ("D3", "Drekkana", "Siblings, courage"),
   ("D4", "Chaturthamsa", "Fortune, property"),
   ("D7", "Saptamsa", "Children, progeny"),
   ("D9", "Navamsa", "Spouse, dharma, fortune"),
   ("D10", "Dasamsa", "Career, profession"),
   ("D12", "Dwadasamsa", "Parents"),
   ("D16", "Shodasamsa", "Vehicles, luxuries"),
   ("D20", "Vimsamsa", "Spiritual practices"),
   ("D24", "Chaturvimsamsa", "Education, learning"),
   ("D27", "Bhamsa", "Strengths, weaknesses"),
   ("D30", "Trimsamsa", "Misfortunes, evils"),
   ("D40", "Khavedamsa", "Auspicious/inauspicious effects"),
   ("D45", "Akshavedamsa", "General character"),
   ("D60", "Shashtiamsa", "Past life karma")]

/-- `DivisionalCharts.calculate_d9_navamsa` (divisional_charts.py lines 38-70). -/
def calculate_d9_navamsa (longitude : ℚ) : DivPos :=
  let sign := pyInt (longitude / 30)
  let degree_in_sign := pyMod longitude 30
  let navamsa_in_sign := pyInt (degree_in_sign / (30 / 9))
  let sign_type := sign % 3
  let navamsa_sign :=
    if sign_type = 0 then (sign + navamsa_in_sign) % 12
    else if sign_type = 1 then (sign + 8 + navamsa_in_sign) % 12
    else (sign + 4 + navamsa_in_sign) % 12
  let degree_within_navamsa := pyMod degree_in_sign (30 / 9) * 9
  { sign := SIGNS.getD navamsa_sign.toNat ""
    sign_num := navamsa_sign + 1
    degree := degree_within_navamsa
    degree_formatted := fmtDeg degree_within_navamsa }

/-- `DivisionalCharts.calculate_d10_dasamsa` (divisional_charts.py lines 72-97). -/
def calculate_d10_dasamsa (longitude : ℚ) : DivPos :=
  let sign := pyInt (longitude / 30)
  let degree_in_sign := pyMod longitude 30
  let dasamsa_in_sign := pyInt (degree_in_sign / 3)
  let dasamsa_sign :=
    if sign % 2 = 0 then (sign + dasamsa_in_sign) % 12
    else (sign + 8 + dasamsa_in_sign) % 12
  let degree_within_dasamsa := pyMod degree_in_sign 3 * 10
  { sign := SIGNS.getD dasamsa_sign.toNat ""
    sign_num := dasamsa_sign + 1
    degree := degree_within_dasamsa
    degree_formatted := fmtDeg degree_within_dasamsa }

/-- `DivisionalCharts.calculate_d7_saptamsa` (divisional_charts.py lines 99-124). -/
def calculate_d7_saptamsa (longitude : ℚ) : DivPos :=
  let sign := pyInt (longitude / 30)
  let degree_in_sign := pyMod longitude 30
  let saptamsa_in_sign := pyInt (degree_in_sign / (30 / 7))
  let saptamsa_sign :=
    if sign % 2 = 0 then (sign + saptamsa_in_sign) % 12
    else (sign + 6 + saptamsa_in_sign) % 12
  let degree_within_saptamsa := pyMod degree_in_sign (30 / 7) * 7
  { sign := SIGNS.getD saptamsa_sign.toNat ""
    sign_num := saptamsa_sign + 1
    degree := degree_within_saptamsa
    degree_formatted := fmtDeg degree_within_saptamsa }

/-- `DivisionalCharts.calculate_d12_dwadasamsa` (divisional_charts.py
lines 126-147). -/
def calculate_d12_dwadasamsa (longitude : ℚ) : DivPos :=
  let sign := pyInt (longitude / 30)
  let degree_in_sign := pyMod longitude 30
  let dwadasamsa_in_sign := pyInt (degree_in_sign / 2.5)
  let dwadasamsa_sign := (sign + dwadasamsa_in_sign) % 12
  let degree_within_dwadasamsa := pyMod degree_in_sign 2.5 * 12
  { sign := SIGNS.getD dwadasamsa_sign.toNat ""
    sign_num := dwadasamsa_sign + 1
    degree := degree_within_dwadasamsa
    degree_formatted := fmtDeg degree_within_dwadasamsa }

/-- `DivisionalCharts.calculate_d16_shodasamsa` (divisional_charts.py
lines 149-178). -/
def calculate_d16_shodasamsa (longitude : ℚ) : DivPos :=
  let sign := pyInt (longitude / 30)
  let degree_in_sign := pyMod longitude 30
  let shodasamsa_in_sign := pyInt (degree_in_sign / 1.875)
  let sign_type := sign % 3
  let shodasamsa_sign :=
    if sign_type = 0 then (sign + shodasamsa_in_sign) % 12
    else if sign_type = 1 then (sign + 4 + shodasamsa_in_sign) % 12
    else (sign + 8 + shodasamsa_in_sign) % 12
  let degree_within_shodasamsa := pyMod degree_in_sign 1.875 * 16
  { sign := SIGNS.getD shodasamsa_sign.toNat ""
    sign_num := shodasamsa_sign + 1
    degree := degree_within_shodasamsa
    degree_formatted := fmtDeg degree_within_shodasamsa }

/-- `DivisionalCharts.calculate_d20_vimsamsa` (divisional_charts.py
lines 180-209). -/
def calculate_d20_vimsamsa (longitude : ℚ) : DivPos :=
  let sign := pyInt (longitude / 30)
  let degree_in_sign := pyMod longitude 30
  let vimsamsa_in_sign := pyInt (degree_in_sign / 1.5)
  let sign_type := sign % 3
  let vimsamsa_sign :=
    if sign_type = 0 then (0 + vimsamsa_in_sign) % 12
    else if sign_type = 1 then (8 + vimsamsa_in_sign) % 12
    else (4 + vimsamsa_in_sign) % 12
  let degree_within_vimsamsa := pyMod degree_in_sign 1.5 * 20
  { sign := SIGNS.getD vimsamsa_sign.toNat ""
    sign_num := vimsamsa_sign + 1
    degree := degree_within_vimsamsa
    degree_formatted := fmtDeg degree_within_vimsamsa }

/-- `DivisionalCharts.calculate_d24_chaturvimsamsa` (divisional_charts.py
lines 211-236). -/
def calculate_d24_chaturvimsamsa (longitude : ℚ) : DivPos :=
  let sign := pyInt (longitude / 30)
  let degree_in_sign := pyMod longitude 30
  let chaturvimsamsa_in_sign := pyInt (degree_in_sign / 1.25)
  let chaturvimsamsa_sign :=
    if sign % 2 = 0 then (4 + chaturvimsamsa_in_sign) % 12
    else (3 + chaturvimsamsa_in_sign) % 12
  let degree_within_chaturvimsamsa := pyMod degree_in_sign 1.25 * 24
  { sign := SIGNS.getD chaturvimsamsa_sign.toNat ""
    sign_num := chaturvimsamsa_sign + 1
    degree := degree_within_chaturvimsamsa
    degree_formatted := fmtDeg degree_within_chaturvimsamsa }

/-- `DivisionalCharts.calculate_d30_trimsamsa` (divisional_charts.py
lines 238-280). -/
def calculate_d30_trimsamsa (longitude : ℚ) : DivPos :=
  let sign := pyInt (longitude / 30)
  let degree_in_sign := pyMod longitude 30
  let trimsamsa_sign :=
    if sign % 2 = 0 then
      if degree_in_sign < 5 then (sign + 0) % 12
      else if degree_in_sign < 10 then (sign + 6) % 12
      else if degree_in_sign < 18 then (sign + 8) % 12
      else if degree_in_sign < 25 then (sign + 2) % 12
      else (sign + 4) % 12
    else
      if degree_in_sign < 5 then (sign + 4) % 12
      else if degree_in_sign < 12 then (sign + 2) % 12
      else if degree_in_sign < 20 then (sign + 8) % 12
      else if degree_in_sign < 25 then (sign + 6) % 12
      else (sign + 0) % 12
  let degree_within_trimsamsa := pyMod degree_in_sign 1 * 30
  { sign := SIGNS.getD trimsamsa_sign.toNat ""
    sign_num := trimsamsa_sign + 1
    degree := degree_within_trimsamsa
    degree_formatted := fmtDeg degree_within_trimsamsa }

/-- `DivisionalCharts.calculate_d60_shashtiamsa` (divisional_charts.py
lines 282-303). -/
def calculate_d60_shashtiamsa (longitude : ℚ) : DivPos :=
  let sign := pyInt (longitude / 30)
  let degree_in_sign := pyMod longitude 30
  let shashtiamsa_in_sign := pyInt (degree_in_sign / 0.5)
  let shashtiamsa_sign := (sign + shashtiamsa_in_sign) % 12
  let degree_within_shashtiamsa := pyMod degree_in_sign 0.5 * 60
  { sign := SIGNS.getD shashtiamsa_sign.toNat ""
    sign_num := shashtiamsa_sign + 1
    degree := degree_within_shashtiamsa
    degree_formatted := fmtDeg degree_within_shashtiamsa }

/-- The `D1` lambda of `method_map` (divisional_charts.py lines 317-318). -/
def d1Method (x : ℚ) : DivPos :=
  { sign := SIGNS.getD (pyInt (x / 30)).toNat ""
    sign_num := pyInt (x / 30) + 1
    degree := pyMod x 30
    degree_formatted := fmtDeg (pyMod x 30) }

/-- `method_map` of `calculate_divisional_chart` (divisional_charts.py
lines 316-328). -/
def method_map : List (String × (ℚ → DivPos)) :=
  [("D1", d1Method),
   ("D7", calculate_d7_saptamsa),
   ("D9", calculate_d9_navamsa),
   ("D10", calculate_d10_dasamsa),
   ("D12", calculate_d12_dwadasamsa),
   ("D16", calculate_d16_shodasamsa),
   ("D20", calculate_d20_vimsamsa),
   ("D24", calculate_d24_chaturvimsamsa),
   ("D30", calculate_d30_trimsamsa),
   ("D60", calculate_d60_shashtiamsa)]

/-- The dict returned by `calculate_divisional_chart` (divisional_charts.py
lines 340-345). -/
structure DivChart where
  chart_type : String
  name : String
  signification : String
  positions : List (String × DivPos)
deriving Inhabited

/-- `DivisionalCharts.calculate_divisional_chart` (divisional_charts.py
lines 305-345).  An unsupported chart type raises `ValueError`, modelled by
`Except.error`; the per-planet positions are computed only after the check. -/
def calculate_divisional_chart (chart_type : String)
    (planet_positions : List (String × PlanetEntry)) : Except String DivChart :=
  match method_map.lookup chart_type with
  | none => .error ("Unsupported chart type: " ++ chart_type)
  | some calculation_method =>
    let divisional_positions :=
      planet_positions.map (fun pd => (pd.1, calculation_method pd.2.longitude))
    .ok { chart_type := chart_type
          name := ((CHART_INFO.lookup chart_type).map Prod.fst).getD chart_type
          signification := ((CHART_INFO.lookup chart_type).map Prod.snd).getD ""
          positions := divisional_positions }

/-! ## Dasha engine (vedic_calculator.py lines 186-242) -/

/-- A Python datetime: days since the epoch (an integer value is a midnight)
plus the timezone-awareness flag.  `tzinfo is None` is `aware = false`. -/
structure PyDatetime where
  t : ℚ
  aware : Bool
deriving DecidableEq, Inhabited

/-- Python datetime comparison: comparing an offset-naive with an offset-aware
datetime raises `TypeError`. -/
def dtLE (a b : PyDatetime) : Except String Bool :=
  if a.aware = b.aware then .ok (decide (a.t ≤ b.t))
  else .error "TypeError: cannot compare offset-naive and offset-aware datetimes"

/-- The `dasha_years` dict (vedic_calculator.py lines 189-192). -/
def dasha_years : List (String × ℚ) :=
  [("Ketu", 7), ("Venus", 20), ("Sun", 6), ("Moon", 10),
   ("Mars", 7), ("Rahu", 18), ("Jupiter", 16), ("Saturn", 19), ("Mercury", 17)]

/-- One dasha period (vedic_calculator.py lines 216-221).  The dict stores
`start` and `end` as date strings from `strftime`; here the exact datetimes
are kept, and the day-truncation `⌊·⌋` is applied where the code parses the
strings back (lines 232-233). -/
structure Period where
  lord : String
  startD : ℚ
  endD : ℚ
  years : ℚ
deriving DecidableEq, Inhabited

/-- The period-generation loop of `calculate_vimshottari_dasha`
(vedic_calculator.py lines 209-223): `i` is the loop counter, the last
argument the remaining iteration count. -/
def dashaLoop (start_idx : ℕ) (current_date : ℚ) (i : ℕ) : ℕ → List Period
  | 0 => []
  | Nat.succ count =>
    let lord_idx := (start_idx + i) % 9
    let lord := NAKSHATRA_LORDS.getD lord_idx ""
    let years := (dasha_years.lookup lord).getD 0
    let end_date := current_date + years * 365.25
    { lord := lord, startD := current_date, endD := end_date, years := years } ::
      dashaLoop start_idx end_date (i + 1) count

/-- The nine periods generated for a birth instant and a Moon nakshatra
(vedic_calculator.py lines 202-223).  `List.indexOf` models `list.index`
(which raises for a lord outside the list; every lord produced by
`calculate_nakshatra` is in `NAKSHATRA_LORDS`, and the theorems carry that
membership).  The `moon_long` variable of lines 199-200 is dead code and is
omitted. -/
def vimshottariPeriods (birth_datetime : PyDatetime) (moon_nakshatra : Nak) : List Period :=
  let starting_lord := moon_nakshatra.lord
  let start_idx := NAKSHATRA_LORDS.indexOf starting_lord
  dashaLoop start_idx birth_datetime.t 0 9

/-- The current-dasha search loop (vedic_calculator.py lines 230-236): each
stored date string parses back to a naive midnight datetime, and the chained
comparison `start <= now <= end` evaluates `start <= now` first. -/
def findCurrentDasha (now : PyDatetime) : List Period → Except String (Option Period)
  | [] => .ok none
  | dasha :: rest =>
    let start : PyDatetime := { t := ((dasha.startD.floor : ℤ) : ℚ), aware := false }
    let endDT : PyDatetime := { t := ((dasha.endD.floor : ℤ) : ℚ), aware := false }
    match dtLE start now with
    | .error e => .error e
    | .ok false => findCurrentDasha now rest
    | .ok true =>
      match dtLE now endDT with
      | .error e => .error e
      | .ok false => findCurrentDasha now rest
      | .ok true => .ok (some dasha)

/-- The dict returned by `calculate_vimshottari_dasha` (vedic_calculator.py
lines 238-242). -/
structure DashaInfo where
  system : String
  periods : List Period
  current_mahadasha : Option Period
deriving DecidableEq, Inhabited

/-- `VedicCalculator.calculate_vimshottari_dasha` (vedic_calculator.py
lines 186-242).  `now` is the wall clock read by `datetime.now(pytz.UTC)`,
made explicit as a parameter; it is stripped to naive when the birth datetime
is naive (lines 226-228). -/
def calculate_vimshottari_dasha (birth_datetime : PyDatetime) (moon_nakshatra : Nak)
    (now : ℚ) : Except String DashaInfo :=
  let dashas := vimshottariPeriods birth_datetime moon_nakshatra
  let nowDT : PyDatetime := { t := now, aware := birth_datetime.aware }
  match findCurrentDasha nowDT dashas with
  | .error e => .error e
  | .ok current_dasha =>
    .ok { system := "Vimshottari", periods := dashas, current_mahadasha := current_dasha }

/-! ## Chart assembly (vedic_calculator.py lines 137-184) -/

/-- The dict returned by `calculate_chart` (vedic_calculator.py lines 177-184).
The planets map is in the insertion order of the `PLANETS` dict. -/
structure Chart where
  birth_datetime : ℚ
  location : ℚ × ℚ
  ayanamsa : ℚ
  planets : List (String × PlanetEntry)
  houses : List House
  dasha : DashaInfo
deriving DecidableEq, Inhabited

/-- `VedicCalculator.calculate_chart` (vedic_calculator.py lines 137-184).
The `PLANETS` dict iterates Sun, Moon, Mars, Mercury, Jupiter, Venus, Saturn,
Rahu, Ketu, Ascendant, with the Swiss Ephemeris ids shown; Ketu is derived
from the already-stored Rahu longitude, the Ascendant from
`calculate_ascendant`.  A `TypeError` escaping the dasha step aborts the
chart. -/
def calculate_chart (e : Ephemeris) (birth_datetime : PyDatetime)
    (latitude longitude : ℚ) (now : ℚ) : Except String Chart :=
  let jd := e.julday birth_datetime.t
  let ascendant_data := calculate_ascendant e jd latitude longitude
  let sun := planetEntryOf e 0 jd
  let moon := planetEntryOf e 1 jd
  let mars := planetEntryOf e 4 jd
  let mercury := planetEntryOf e 2 jd
  let jupiter := planetEntryOf e 5 jd
  let venus := planetEntryOf e 3 jd
  let saturn := planetEntryOf e 6 jd
  let rahu := planetEntryOf e 10 jd
  let ketu := ketuEntry rahu.longitude
  let asc := ascendant_data.withNakshatra (calculate_nakshatra ascendant_data.longitude)
  let planets := [("Sun", sun), ("Moon", moon), ("Mars", mars), ("Mercury", mercury),
    ("Jupiter", jupiter), ("Venus", venus), ("Saturn", saturn), ("Rahu", rahu),
    ("Ketu", ketu), ("Ascendant", asc)]
  let houses := calculate_houses e jd latitude longitude
  match calculate_vimshottari_dasha birth_datetime moon.nakshatra now with
  | .error err => .error err
  | .ok dasha_info =>
    .ok { birth_datetime := birth_datetime.t
          location := (latitude, longitude)
          ayanamsa := e.ayanamsa jd
          planets := planets
          houses := houses
          dasha := dasha_info }

/-! ## Yoga detector (yoga_detector.py) -/

/-- A yoga record (yoga_detector.py, for example lines 325-332). -/
structure Yoga where
  name : String
  type : String
  description : String
  planets : List String
  strength : String
  effects : String
deriving DecidableEq, Inhabited

/-- `YogaDetector.planets_in_conjunction` (yoga_detector.py lines 90-100);
the default orb is 10. -/
def planets_in_conjunction (planet1_data planet2_data : PlanetEntry) (orb : ℚ) : Bool :=
  let long1 := planet1_data.longitude
  let long2 := planet2_data.longitude
  let diff := |long1 - long2|
  let diff := if diff > 180 then 360 - diff else diff
  decide (diff ≤ orb)

/-- `YogaDetector.detect_budhaditya_yoga` (yoga_detector.py lines 306-334).
Note that the combustion check (line 316) uses the raw absolute difference of
longitudes, without the wrap-around applied in `planets_in_conjunction`. -/
def detect_budhaditya_yoga (planets : List (String × PlanetEntry)) : List Yoga :=
  match planets.lookup "Sun", planets.lookup "Mercury" with
  | some sun, some mercury =>
    if planets_in_conjunction sun mercury 15 then
      let degree_diff := |sun.longitude - mercury.longitude|
      let status := if degree_diff < 3 then "Weak (Combust)" else "Moderate"
      let effects :=
        if degree_diff < 3 then
          "Intelligence, learning, communication skills, but Mercury is combust (weakened)"
        else "Intelligence, learning, communication skills"
      [{ name := "Budhaditya Yoga"
         type := "Intelligence"
         description := "Sun and Mercury conjunction in " ++ sun.sign
         planets := ["Sun", "Mercury"]
         strength := status
         effects := effects }]
    else []
  | _, _ => []

/-! ## Specification-side definitions, used to state the claims -/

/-- The ten supported divisional chart codes named by the specification. -/
def supportedChartTypes : List String :=
  ["D1", "D7", "D9", "D10", "D12", "D16", "D20", "D24", "D30", "D60"]

/-- A Python dict value appearing in a position record: a number, a string,
or the degrees-minutes pair behind the formatted degree string. -/
inductive PVal where
  | num (q : ℚ)
  | txt (s : String)
  | fmtv (p : ℤ × ℤ)
deriving DecidableEq

/-- The dict rendering of a divisional position, keys in source order
(divisional_charts.py, for example lines 65-70). -/
def DivPos.toDict (p : DivPos) : List (String × PVal) :=
  [("sign", PVal.txt p.sign), ("sign_num", PVal.num (p.sign_num : ℚ)),
   ("degree", PVal.num p.degree), ("degree_formatted", PVal.fmtv p.degree_formatted)]

/-- The dict rendering of a normalized position, keys in source order
(vedic_calculator.py lines 74-80). -/
def PlanetPos.toDict (p : PlanetPos) : List (String × PVal) :=
  [("longitude", PVal.num p.longitude), ("sign", PVal.txt p.sign),
   ("sign_num", PVal.num (p.sign_num : ℚ)), ("degree", PVal.num p.degree),
   ("degree_formatted", PVal.fmtv p.degree_formatted)]

/-- The D30 segment-to-sign offset table as the specification states it:
odd natal signs (zero-based even index) have boundaries 5, 10, 18, 25 with
offsets 0, 6, 8, 2, 4; even natal signs have boundaries 5, 12, 20, 25 with
offsets 4, 2, 8, 6, 0. -/
def d30OffsetSpec (sign : ℤ) (d : ℚ) : ℤ :=
  if sign % 2 = 0 then
    if d < 5 then 0 else if d < 10 then 6 else if d < 18 then 8
    else if d < 25 then 2 else 4
  else
    if d < 5 then 4 else if d < 12 then 2 else if d < 20 then 8
    else if d < 25 then 6 else 0

/-- The width of the D30 segment containing a degree, per the boundaries the
specification states. -/
def d30SegmentWidthSpec (sign : ℤ) (d : ℚ) : ℚ :=
  if sign % 2 = 0 then
    if d < 5 then 5 else if d < 10 then 5 else if d < 18 then 8
    else if d < 25 then 7 else 5
  else
    if d < 5 then 5 else if d < 12 then 7 else if d < 20 then 8
    else if d < 25 then 5 else 5

/-- The D30 degree-within-division formula asserted by the specification:
`(degreeInNatalSign mod segmentWidth) * 30`. -/
def d30DegreeSpec (longitude : ℚ) : ℚ :=
  let sign := pyInt (longitude / 30)
  let degree_in_sign := pyMod longitude 30
  pyMod degree_in_sign (d30SegmentWidthSpec sign degree_in_sign) * 30

/-- The circular angular distance used by the specification for conjunction
and combustion tests. -/
def circularDistance (long1 long2 : ℚ) : ℚ :=
  let diff := |long1 - long2|
  if diff > 180 then 360 - diff else diff

/-- A chart with its `current_mahadasha` field erased, to state which parts of
the output are independent of the wall clock. -/
def Chart.withoutCurrent (c : Chart) : Chart :=
  { c with dasha := { c.dasha with current_mahadasha := none } }

/-- A trivial ephemeris oracle, used to instantiate universally quantified
theorems at a concrete input. -/
def zeroEphem : Ephemeris :=
  { julday := fun _ => 0
    ayanamsa := fun _ => 0
    bodyLon := fun _ _ => 0
    ascTropical := fun _ _ _ => 0 }

/-! ## Arithmetic helper lemmas -/

theorem ratFloor_eq_floor (q : ℚ) : q.floor = ⌊q⌋ := by
  rw [Rat.floor_def', Rat.floor_def]

theorem pyMod_eq (x y : ℚ) : pyMod x y = x - y * ((⌊x / y⌋ : ℤ) : ℚ) := by
  unfold pyMod
  rw [ratFloor_eq_floor]

theorem pyMod_nonneg (x y : ℚ) (hy : 0 < y) : 0 ≤ pyMod x y := by
  have h1 : ((⌊x / y⌋ : ℤ) : ℚ) ≤ x / y := Int.floor_le (x / y)
  have h2 : y * ((⌊x / y⌋ : ℤ) : ℚ) ≤ y * (x / y) :=
    mul_le_mul_of_nonneg_left h1 (le_of_lt hy)
  have h3 : y * (x / y) = x := by
    field_simp
  rw [pyMod_eq]
  linarith

theorem pyMod_lt (x y : ℚ) (hy : 0 < y) : pyMod x y < y := by
  have h1 : x / y < (⌊x / y⌋ : ℤ) + 1 := Int.lt_floor_add_one (x / y)
  have h2 : x < ((⌊x / y⌋ : ℤ) + 1) * y := (div_lt_iff₀ hy).mp h1
  rw [pyMod_eq]
  push_cast at h2
  nlinarith

theorem pyInt_eq_floor (q : ℚ) (h : 0 ≤ q) : pyInt q = ⌊q⌋ := by
  unfold pyInt
  rw [if_neg (not_lt.mpr h), ratFloor_eq_floor]

theorem floor_div_bounds (x d : ℚ) (n : ℤ) (hd : 0 < d) (h0 : 0 ≤ x) (h1 : x < d * n) :
    0 ≤ ⌊x / d⌋ ∧ ⌊x / d⌋ < n := by
  refine ⟨Int.floor_nonneg.mpr (div_nonneg h0 (le_of_lt hd)), ?_⟩
  apply Int.floor_lt.mpr
  rw [div_lt_iff₀ hd]
  nlinarith

/-! ## Dasha loop lemmas -/

theorem dashaLoop_succ (s : ℕ) (c : ℚ) (i count : ℕ) :
    dashaLoop s c i (count + 1) =
      { lord := NAKSHATRA_LORDS.getD ((s + i) % 9) ""
        startD := c
        endD := c + ((dasha_years.lookup (NAKSHATRA_LORDS.getD ((s + i) % 9) "")).getD 0) * 365.25
        years := (dasha_years.lookup (NAKSHATRA_LORDS.getD ((s + i) % 9) "")).getD 0 } ::
      dashaLoop s
        (c + ((dasha_years.lookup (NAKSHATRA_LORDS.getD ((s + i) % 9) "")).getD 0) * 365.25)
        (i + 1) count := rfl

theorem dashaLoop_length (count : ℕ) :
    ∀ (s i : ℕ) (c : ℚ), (dashaLoop s c i count).length = count := by
  induction count with
  | zero => intro s i c; rfl
  | succ n ih => intro s i c; rw [dashaLoop_succ]; simp [ih]

theorem dashaLoop_map_lord (count : ℕ) :
    ∀ (s i : ℕ) (c : ℚ),
      (dashaLoop s c i count).map Period.lord =
        (List.range count).map (fun k => NAKSHATRA_LORDS.getD ((s + i + k) % 9) "") := by
  induction count with
  | zero => intro s i c; rfl
  | succ n ih =>
    intro s i c
    rw [dashaLoop_succ, List.range_succ_eq_map, List.map_cons, List.map_cons, List.map_map]
    refine congrArg₂ List.cons (by norm_num) ?_
    rw [ih]
    apply List.map_congr_left
    intro k _
    have h : s + (i + 1) + k = s + i + (k + 1) := by omega
    simp [Function.comp, h]

theorem dashaLoop_map_years (count : ℕ) :
    ∀ (s i : ℕ) (c : ℚ),
      (dashaLoop s c i count).map Period.years =
        (List.range count).map
          (fun k => (dasha_years.lookup (NAKSHATRA_LORDS.getD ((s + i + k) % 9) "")).getD 0) := by
  induction count with
  | zero => intro s i c; rfl
  | succ n ih =>
    intro s i c
    rw [dashaLoop_succ, List.range_succ_eq_map, List.map_cons, List.map_cons, List.map_map]
    refine congrArg₂ List.cons (by norm_num) ?_
    rw [ih]
    apply List.map_congr_left
    intro k _
    have h : s + (i + 1) + k = s + i + (k + 1) := by omega
    simp [Function.comp, h]

theorem dashaLoop_span (count : ℕ) :
    ∀ (s i : ℕ) (c : ℚ) (p : Period), p ∈ dashaLoop s c i count →
      p.endD = p.startD + p.years * 365.25 := by
  induction count with
  | zero => intro s i c p hp; simp [dashaLoop] at hp
  | succ n ih =>
    intro s i c p hp
    rw [dashaLoop_succ] at hp
    rcases List.mem_cons.mp hp with rfl | hp
    · rfl
    · exact ih s (i + 1) _ p hp

theorem dashaLoop_head_start (count : ℕ) (h : count ≠ 0) (s i : ℕ) (c : ℚ) :
    ((dashaLoop s c i count).getD 0 default).startD = c := by
  cases count with
  | zero => exact absurd rfl h
  | succ n => rw [dashaLoop_succ]; rfl

theorem dashaLoop_head_years (count : ℕ) (h : count ≠ 0) (s i : ℕ) (c : ℚ) :
    ((dashaLoop s c i count).getD 0 default).years =
      (dasha_years.lookup (NAKSHATRA_LORDS.getD ((s + i) % 9) "")).getD 0 := by
  cases count with
  | zero => exact absurd rfl h
  | succ n => rw [dashaLoop_succ]; rfl

theorem dashaLoop_chain (count : ℕ) :
    ∀ (s i : ℕ) (c : ℚ) (k : ℕ), k + 1 < count →
      ((dashaLoop s c i count).getD (k + 1) default).startD =
        ((dashaLoop s c i count).getD k default).endD := by
  induction count with
  | zero => intro s i c k hk; omega
  | succ n ih =>
    intro s i c k hk
    rw [dashaLoop_succ]
    cases k with
    | zero =>
      have hn : n ≠ 0 := by omega
      simp only [List.getD_cons_succ, List.getD_cons_zero]
      rw [dashaLoop_head_start n hn]
    | succ m =>
      simp only [List.getD_cons_succ]
      exact ih s (i + 1) _ m (by omega)

/-! ## Dasha engine control-flow lemmas -/

theorem findCurrent_naive_ok (now : PyDatetime) (hn : now.aware = false) :
    ∀ ps : List Period, ∃ r, findCurrentDasha now ps = Except.ok r := by
  intro ps
  induction ps with
  | nil => exact ⟨none, rfl⟩
  | cons d rest ih =>
    obtain ⟨r, hr⟩ := ih
    by_cases h1 : ((d.startD.floor : ℚ) ≤ now.t)
    · by_cases h2 : (now.t ≤ (d.endD.floor : ℚ))
      · exact ⟨some d, by simp [findCurrentDasha, dtLE, hn, h1, h2]⟩
      · exact ⟨r, by simp [findCurrentDasha, dtLE, hn, h1, h2, hr]⟩
    · exact ⟨r, by simp [findCurrentDasha, dtLE, hn, h1, hr]⟩

theorem vimshottari_naive_ok (birth_datetime : PyDatetime) (moon_nakshatra : Nak)
    (now : ℚ) (hb : birth_datetime.aware = false) :
    ∃ cur, calculate_vimshottari_dasha birth_datetime moon_nakshatra now =
      Except.ok { system := "Vimshottari"
                  periods := vimshottariPeriods birth_datetime moon_nakshatra
                  current_mahadasha := cur } := by
  obtain ⟨r, hr⟩ := findCurrent_naive_ok { t := now, aware := birth_datetime.aware }
    (by simp [hb]) (vimshottariPeriods birth_datetime moon_nakshatra)
  exact ⟨r, by simp only [calculate_vimshottari_dasha, hr]⟩

theorem vimshottari_aware_error (birth_datetime : PyDatetime) (moon_nakshatra : Nak)
    (now : ℚ) (hb : birth_datetime.aware = true) :
    calculate_vimshottari_dasha birth_datetime moon_nakshatra now =
      Except.error "TypeError: cannot compare offset-naive and offset-aware datetimes" := by
  simp only [calculate_vimshottari_dasha, vimshottariPeriods]
  rw [show (9 : ℕ) = 8 + 1 from rfl, dashaLoop_succ]
  simp [findCurrentDasha, dtLE, hb]

theorem chart_naive_ok (e : Ephemeris) (birth_datetime : PyDatetime)
    (latitude longitude now : ℚ) (hb : birth_datetime.aware = false) :
    ∃ c, calculate_chart e birth_datetime latitude longitude now = Except.ok c := by
  obtain ⟨cur, hd⟩ := vimshottari_naive_ok birth_datetime
    (planetEntryOf e 1 (e.julday birth_datetime.t)).nakshatra now hb
  cases hres : calculate_chart e birth_datetime latitude longitude now with
  | ok c => exact ⟨c, rfl⟩
  | error msg =>
    exfalso
    simp only [calculate_chart, hd] at hres
    exact absurd hres (by simp)

/-! ## Claim theorems -/

/-- C1: in every chart produced by `calculate_chart`, the Ketu entry's
longitude is exactly `(Rahu.longitude + 180) mod 360`, and the whole Ketu
entry (sign, degree-in-sign, formatted degree, nakshatra) equals the
normalize-plus-nakshatra treatment applied to every other planet, evaluated at
that longitude. -/
theorem C1_ketu_opposition (e : Ephemeris) (birth_datetime : PyDatetime)
    (latitude longitude now : ℚ) (c : Chart)
    (h : calculate_chart e birth_datetime latitude longitude now = Except.ok c) :
    ∃ rahu ketu, c.planets.lookup "Rahu" = some rahu ∧
      c.planets.lookup "Ketu" = some ketu ∧
      ketu.longitude = pyMod (rahu.longitude + 180) 360 ∧
      ketu = planetEntry (pyMod (rahu.longitude + 180) 360) := by
  simp only [calculate_chart] at h
  split at h
  · exact absurd h (by simp)
  · rw [Except.ok.injEq] at h
    subst h
    exact ⟨_, _, rfl, rfl, rfl, rfl⟩

theorem C1_ketu_opposition_witness :
    ∃ c, calculate_chart zeroEphem { t := 0, aware := false } 0 0 1 = Except.ok c ∧
      ∃ rahu ketu, c.planets.lookup "Rahu" = some rahu ∧
        c.planets.lookup "Ketu" = some ketu ∧
        ketu.longitude = pyMod (rahu.longitude + 180) 360 ∧
        ketu = planetEntry (pyMod (rahu.longitude + 180) 360) := by
  obtain ⟨c, hc⟩ := chart_naive_ok zeroEphem { t := 0, aware := false } 0 0 1 rfl
  exact ⟨c, hc, C1_ketu_opposition zeroEphem { t := 0, aware := false } 0 0 1 c hc⟩

/-- C4: for every longitude in `[0, 360)`, `calculate_nakshatra` returns the
1-based index `floor(longitude / (360/27)) + 1` lying in `[1, 27]` with the
matching name from the 27-name table, a pada
`floor((longitude mod (360/27)) / ((360/27)/4)) + 1` lying in `[1, 4]`, and
the lord taken from the fixed nine-planet list `NAKSHATRA_LORDS` (the Dasha
Engine's rotation list) at position `index mod 9`. -/
theorem C4_nakshatra_resolver (longitude : ℚ) (h0 : 0 ≤ longitude) (h1 : longitude < 360) :
    (calculate_nakshatra longitude).nakshatra_num = ⌊longitude / (360 / 27)⌋ + 1 ∧
    1 ≤ (calculate_nakshatra longitude).nakshatra_num ∧
    (calculate_nakshatra longitude).nakshatra_num ≤ 27 ∧
    (calculate_nakshatra longitude).nakshatra =
      NAKSHATRAS.getD (⌊longitude / (360 / 27)⌋).toNat "" ∧
    (calculate_nakshatra longitude).pada =
      ⌊pyMod longitude (360 / 27) / ((360 / 27) / 4)⌋ + 1 ∧
    1 ≤ (calculate_nakshatra longitude).pada ∧
    (calculate_nakshatra longitude).pada ≤ 4 ∧
    (calculate_nakshatra longitude).lord =
      NAKSHATRA_LORDS.getD ((⌊longitude / (360 / 27)⌋ % 9)).toNat "" := by
  have hd : (0 : ℚ) < 360 / 27 := by norm_num
  have hnum : pyInt (longitude / (360 / 27)) = ⌊longitude / (360 / 27)⌋ :=
    pyInt_eq_floor _ (div_nonneg h0 (le_of_lt hd))
  have hbound : 0 ≤ ⌊longitude / (360 / 27)⌋ ∧ ⌊longitude / (360 / 27)⌋ < 27 :=
    floor_div_bounds longitude (360 / 27) 27 hd h0 (by norm_num; linarith)
  have hm0 : 0 ≤ pyMod longitude (360 / 27) := pyMod_nonneg _ _ hd
  have hm1 : pyMod longitude (360 / 27) < 360 / 27 := pyMod_lt _ _ hd
  have hpada : pyInt (pyMod longitude (360 / 27) / ((360 / 27) / 4)) =
      ⌊pyMod longitude (360 / 27) / ((360 / 27) / 4)⌋ :=
    pyInt_eq_floor _ (div_nonneg hm0 (by norm_num))
  have hpb : 0 ≤ ⌊pyMod longitude (360 / 27) / ((360 / 27) / 4)⌋ ∧
      ⌊pyMod longitude (360 / 27) / ((360 / 27) / 4)⌋ < 4 :=
    floor_div_bounds _ ((360 / 27) / 4) 4 (by norm_num) hm0 (by norm_num; linarith)
  refine ⟨?_, ?_, ?_, ?_, ?_, ?_, ?_, ?_⟩ <;>
    simp only [calculate_nakshatra, hnum, hpada] <;>
    first
    | rfl
    | omega

theorem C4_nakshatra_resolver_witness :
    (calculate_nakshatra 100).nakshatra_num = ⌊(100 : ℚ) / (360 / 27)⌋ + 1 ∧
    1 ≤ (calculate_nakshatra 100).nakshatra_num ∧
    (calculate_nakshatra 100).nakshatra_num ≤ 27 ∧
    (calculate_nakshatra 100).nakshatra =
      NAKSHATRAS.getD (⌊(100 : ℚ) / (360 / 27)⌋).toNat "" ∧
    (calculate_nakshatra 100).pada =
      ⌊pyMod 100 (360 / 27) / ((360 / 27) / 4)⌋ + 1 ∧
    1 ≤ (calculate_nakshatra 100).pada ∧
    (calculate_nakshatra 100).pada ≤ 4 ∧
    (calculate_nakshatra 100).lord =
      NAKSHATRA_LORDS.getD ((⌊(100 : ℚ) / (360 / 27)⌋ % 9)).toNat "" :=
  C4_nakshatra_resolver 100 (by norm_num) (by norm_num)

/-- C6 counterexample: the engine's D1 record is not, field for field, the
Position Normalizer's record — the normalizer's dict has a `longitude` key
that the D1 dict lacks — exhibited at longitude 15. -/
theorem C6_counterexample :
    ∃ dc, calculate_divisional_chart "D1" [("Sun", planetEntry 15)] = Except.ok dc ∧
      dc.positions.lookup "Sun" = some (d1Method 15) ∧
      (d1Method 15).toDict ≠ (normalizePos 15).toDict := by
  refine ⟨_, rfl, rfl, ?_⟩
  decide

/-- C6 (amended): the engine dispatches `D1` to the identity-shaped method,
and for every longitude the Position Normalizer's record is exactly the D1
record with one extra leading `longitude` field; the four shared fields
(sign, sign number, degree, formatted degree) agree exactly. -/
theorem C6_d1_identity (longitude : ℚ) :
    method_map.lookup "D1" = some d1Method ∧
    (normalizePos longitude).toDict =
      ("longitude", PVal.num longitude) :: (d1Method longitude).toDict :=
  ⟨rfl, rfl⟩

/-- C2: for every birth instant and every birth-Moon nakshatra (whose lord is
one of the nine dasha lords, as `calculate_nakshatra` guarantees), the Dasha
Engine generates exactly 9 periods; their fixed years sum to exactly 120; the
lords are the canonical nine-lord list rotated to start at the Moon nakshatra
lord; each period spans exactly `years * 365.25` days; the periods are
contiguous from the birth instant; the first period gets its full nominal
years (no balance-of-dasha discount); and a successful
`calculate_vimshottari_dasha` call returns exactly these periods. -/
theorem C2_vimshottari_schedule (birth_datetime : PyDatetime) (moon_nakshatra : Nak)
    (h : moon_nakshatra.lord ∈ NAKSHATRA_LORDS) :
    (vimshottariPeriods birth_datetime moon_nakshatra).length = 9 ∧
    ((vimshottariPeriods birth_datetime moon_nakshatra).map Period.years).sum = 120 ∧
    (vimshottariPeriods birth_datetime moon_nakshatra).map Period.lord =
      NAKSHATRA_LORDS.rotate (NAKSHATRA_LORDS.indexOf moon_nakshatra.lord) ∧
    (∀ p ∈ vimshottariPeriods birth_datetime moon_nakshatra,
      p.endD = p.startD + p.years * 365.25) ∧
    ((vimshottariPeriods birth_datetime moon_nakshatra).getD 0 default).startD =
      birth_datetime.t ∧
    (∀ i, i < 8 →
      ((vimshottariPeriods birth_datetime moon_nakshatra).getD (i + 1) default).startD =
        ((vimshottariPeriods birth_datetime moon_nakshatra).getD i default).endD) ∧
    ((vimshottariPeriods birth_datetime moon_nakshatra).getD 0 default).years =
      (dasha_years.lookup moon_nakshatra.lord).getD 0 ∧
    (∀ now d,
      calculate_vimshottari_dasha birth_datetime moon_nakshatra now = Except.ok d →
        d.periods = vimshottariPeriods birth_datetime moon_nakshatra) := by
  refine ⟨dashaLoop_length 9 _ 0 _, ?_, ?_, ?_, dashaLoop_head_start 9 (by norm_num) _ 0 _,
      fun i hi => dashaLoop_chain 9 _ 0 _ i (by omega), ?_, ?_⟩
  · rw [show vimshottariPeriods birth_datetime moon_nakshatra =
        dashaLoop (NAKSHATRA_LORDS.indexOf moon_nakshatra.lord) birth_datetime.t 0 9 from rfl,
      dashaLoop_map_years]
    simp only [NAKSHATRA_LORDS, List.mem_cons, List.not_mem_nil, or_false] at h
    rcases h with h | h | h | h | h | h | h | h | h <;>
      rw [h] <;>
      simp [List.range_succ, NAKSHATRA_LORDS, dasha_years, List.lookup] <;>
      norm_num
  · rw [show vimshottariPeriods birth_datetime moon_nakshatra =
        dashaLoop (NAKSHATRA_LORDS.indexOf moon_nakshatra.lord) birth_datetime.t 0 9 from rfl,
      dashaLoop_map_lord]
    simp only [NAKSHATRA_LORDS, List.mem_cons, List.not_mem_nil, or_false] at h
    rcases h with h | h | h | h | h | h | h | h | h <;> rw [h] <;> decide
  · exact fun p hp => dashaLoop_span 9 _ 0 _ p hp
  · rw [show vimshottariPeriods birth_datetime moon_nakshatra =
        dashaLoop (NAKSHATRA_LORDS.indexOf moon_nakshatra.lord) birth_datetime.t 0 9 from rfl,
      dashaLoop_head_years 9 (by norm_num)]
    simp only [NAKSHATRA_LORDS, List.mem_cons, List.not_mem_nil, or_false] at h
    rcases h with h | h | h | h | h | h | h | h | h <;> rw [h] <;> decide
  · intro now d hd
    simp only [calculate_vimshottari_dasha] at hd
    split at hd
    · exact absurd hd (by simp)
    · rw [Except.ok.injEq] at hd
      subst hd
      rfl

theorem C2_vimshottari_schedule_witness :
    (vimshottariPeriods { t := 0, aware := false }
      { nakshatra := "Ashwini", nakshatra_num := 1, pada := 1, lord := "Ketu" }).length = 9 ∧
    ((vimshottariPeriods { t := 0, aware := false }
      { nakshatra := "Ashwini", nakshatra_num := 1, pada := 1, lord := "Ketu" }).map
        Period.years).sum = 120 ∧
    (vimshottariPeriods { t := 0, aware := false }
      { nakshatra := "Ashwini", nakshatra_num := 1, pada := 1, lord := "Ketu" }).map
        Period.lord =
      NAKSHATRA_LORDS.rotate (NAKSHATRA_LORDS.indexOf
        (Nak.lord { nakshatra := "Ashwini", nakshatra_num := 1, pada := 1, lord := "Ketu" })) ∧
    (∀ p ∈ vimshottariPeriods { t := 0, aware := false }
      { nakshatra := "Ashwini", nakshatra_num := 1, pada := 1, lord := "Ketu" },
      p.endD = p.startD + p.years * 365.25) ∧
    ((vimshottariPeriods { t := 0, aware := false }
      { nakshatra := "Ashwini", nakshatra_num := 1, pada := 1, lord := "Ketu" }).getD 0
        default).startD = PyDatetime.t { t := 0, aware := false } ∧
    (∀ i, i < 8 →
      ((vimshottariPeriods { t := 0, aware := false }
        { nakshatra := "Ashwini", nakshatra_num := 1, pada := 1, lord := "Ketu" }).getD (i + 1)
          default).startD =
        ((vimshottariPeriods { t := 0, aware := false }
          { nakshatra := "Ashwini", nakshatra_num := 1, pada := 1, lord := "Ketu" }).getD i
            default).endD) ∧
    ((vimshottariPeriods { t := 0, aware := false }
      { nakshatra := "Ashwini", nakshatra_num := 1, pada := 1, lord := "Ketu" }).getD 0
        default).years =
      (dasha_years.lookup
        (Nak.lord { nakshatra := "Ashwini", nakshatra_num := 1, pada := 1, lord := "Ketu" })).getD
        0 ∧
    (∀ now d,
      calculate_vimshottari_dasha { t := 0, aware := false }
        { nakshatra := "Ashwini", nakshatra_num := 1, pada := 1, lord := "Ketu" } now =
          Except.ok d →
        d.periods = vimshottariPeriods { t := 0, aware := false }
          { nakshatra := "Ashwini", nakshatra_num := 1, pada := 1, lord := "Ketu" }) :=
  C2_vimshottari_schedule { t := 0, aware := false }
    { nakshatra := "Ashwini", nakshatra_num := 1, pada := 1, lord := "Ketu" } (by decide)

/-- C3: every chart has exactly 12 houses; house n (n in 1..12) carries sign
index `(ascendant sign index + n - 1) mod 12`; and the 12 signs appear exactly
once each across the houses. -/
theorem C3_whole_sign_houses (e : Ephemeris) (jd latitude longitude : ℚ) :
    (calculate_houses e jd latitude longitude).length = 12 ∧
    (∀ n : ℕ, 1 ≤ n → n ≤ 12 →
      ((calculate_houses e jd latitude longitude).getD (n - 1) default).house = (n : ℤ) ∧
      ((calculate_houses e jd latitude longitude).getD (n - 1) default).sign_num - 1 =
        ((calculate_ascendant e jd latitude longitude).sign_num - 1 + (n : ℤ) - 1) % 12) ∧
    ((calculate_houses e jd latitude longitude).map House.sign).Perm SIGNS := by
  have hsn : (calculate_ascendant e jd latitude longitude).sign_num =
      pyInt (pyMod (e.ascTropical jd latitude longitude - e.ayanamsa jd) 360 / 30) + 1 := rfl
  have h0 : 0 ≤ pyMod (e.ascTropical jd latitude longitude - e.ayanamsa jd) 360 :=
    pyMod_nonneg _ _ (by norm_num)
  have h1 : pyMod (e.ascTropical jd latitude longitude - e.ayanamsa jd) 360 < 360 :=
    pyMod_lt _ _ (by norm_num)
  have hf : pyInt (pyMod (e.ascTropical jd latitude longitude - e.ayanamsa jd) 360 / 30) =
      ⌊pyMod (e.ascTropical jd latitude longitude - e.ayanamsa jd) 360 / 30⌋ :=
    pyInt_eq_floor _ (div_nonneg h0 (by norm_num))
  have hb := floor_div_bounds (pyMod (e.ascTropical jd latitude longitude - e.ayanamsa jd) 360)
    30 12 (by norm_num) h0
    (by rw [show (30 : ℚ) * (12 : ℤ) = 360 by norm_num]; exact h1)
  have hs : 0 ≤ (calculate_ascendant e jd latitude longitude).sign_num - 1 ∧
      (calculate_ascendant e jd latitude longitude).sign_num - 1 ≤ 11 := by
    rw [hsn, hf]
    omega
  simp only [calculate_houses]
  generalize hA : (calculate_ascendant e jd latitude longitude).sign_num - 1 = a at hs ⊢
  obtain ⟨ha0, ha1⟩ := hs
  interval_cases a <;>
    refine ⟨by decide, fun n hn1 hn2 => ?_, by decide⟩ <;>
    (interval_cases n <;> exact ⟨by decide, by decide⟩)

theorem C3_whole_sign_houses_witness :
    (calculate_houses zeroEphem 0 0 0).length = 12 ∧
    (((calculate_houses zeroEphem 0 0 0).getD (5 - 1) default).house = ((5 : ℕ) : ℤ) ∧
      ((calculate_houses zeroEphem 0 0 0).getD (5 - 1) default).sign_num - 1 =
        ((calculate_ascendant zeroEphem 0 0 0).sign_num - 1 + ((5 : ℕ) : ℤ) - 1) % 12) ∧
    ((calculate_houses zeroEphem 0 0 0).map House.sign).Perm SIGNS :=
  ⟨(C3_whole_sign_houses zeroEphem 0 0 0).1,
   (C3_whole_sign_houses zeroEphem 0 0 0).2.1 5 (by norm_num) (by norm_num),
   (C3_whole_sign_houses zeroEphem 0 0 0).2.2⟩

/-- C5 counterexample: the claimed D30 degree formula
`(degreeInNatalSign mod segmentWidth) * 30` disagrees with the code at
longitude 2.5 (degree 2.5 of Aries, first segment, width 5): the code returns
degree 15, the claimed formula 75. -/
theorem C5_counterexample :
    (0 : ℚ) ≤ 5 / 2 ∧ (5 / 2 : ℚ) < 360 ∧
    (calculate_d30_trimsamsa (5 / 2)).degree = 15 ∧
    d30DegreeSpec (5 / 2) = 75 ∧
    (calculate_d30_trimsamsa (5 / 2)).degree ≠ d30DegreeSpec (5 / 2) := by
  have hc : (calculate_d30_trimsamsa (5 / 2)).degree = 15 := by
    show pyMod (pyMod (5 / 2) 30) 1 * 30 = 15
    rw [pyMod_eq, pyMod_eq]
    norm_num
  have hs : d30DegreeSpec (5 / 2) = 75 := by
    norm_num [d30DegreeSpec, d30SegmentWidthSpec, pyInt, pyMod_eq, ratFloor_eq_floor]
  refine ⟨by norm_num, by norm_num, hc, hs, ?_⟩
  rw [hc, hs]
  norm_num

/-- C5 (amended): for every longitude in `[0, 360)`, the D30 transform maps
the degree-in-natal-sign through the 5-segment table exactly as the
specification states it (boundaries 5, 10, 18, 25 and offsets 0, 6, 8, 2, 4
for odd natal signs; boundaries 5, 12, 20, 25 and offsets 4, 2, 8, 6, 0 for
even natal signs), but the degree within the divisional sign is
`(degreeInNatalSign mod 1) * 30`, not the segment-width-dependent value. -/
theorem C5_d30_trimsamsa (longitude : ℚ) (_h0 : 0 ≤ longitude) (_h1 : longitude < 360) :
    (calculate_d30_trimsamsa longitude).sign_num =
      (pyInt (longitude / 30) +
        d30OffsetSpec (pyInt (longitude / 30)) (pyMod longitude 30)) % 12 + 1 ∧
    (calculate_d30_trimsamsa longitude).degree = pyMod (pyMod longitude 30) 1 * 30 := by
  constructor
  · simp only [calculate_d30_trimsamsa, d30OffsetSpec]
    split_ifs <;> rfl
  · rfl

theorem C5_d30_trimsamsa_witness :
    (calculate_d30_trimsamsa 100).sign_num =
      (pyInt ((100 : ℚ) / 30) +
        d30OffsetSpec (pyInt ((100 : ℚ) / 30)) (pyMod 100 30)) % 12 + 1 ∧
    (calculate_d30_trimsamsa 100).degree = pyMod (pyMod 100 30) 1 * 30 :=
  C5_d30_trimsamsa 100 (by norm_num) (by norm_num)

theorem method_map_lookup_none (chart_type : String) (h : chart_type ∉ supportedChartTypes) :
    method_map.lookup chart_type = none := by
  simp only [supportedChartTypes, List.mem_cons, List.not_mem_nil, or_false, not_or] at h
  obtain ⟨h1, h2, h3, h4, h5, h6, h7, h8, h9, h10⟩ := h
  have b1 : (chart_type == "D1") = false := beq_eq_false_iff_ne.mpr h1
  have b2 : (chart_type == "D7") = false := beq_eq_false_iff_ne.mpr h2
  have b3 : (chart_type == "D9") = false := beq_eq_false_iff_ne.mpr h3
  have b4 : (chart_type == "D10") = false := beq_eq_false_iff_ne.mpr h4
  have b5 : (chart_type == "D12") = false := beq_eq_false_iff_ne.mpr h5
  have b6 : (chart_type == "D16") = false := beq_eq_false_iff_ne.mpr h6
  have b7 : (chart_type == "D20") = false := beq_eq_false_iff_ne.mpr h7
  have b8 : (chart_type == "D24") = false := beq_eq_false_iff_ne.mpr h8
  have b9 : (chart_type == "D30") = false := beq_eq_false_iff_ne.mpr h9
  have b10 : (chart_type == "D60") = false := beq_eq_false_iff_ne.mpr h10
  simp [method_map, List.lookup, b1, b2, b3, b4, b5, b6, b7, b8, b9, b10]

/-- C7: `calculate_divisional_chart` fails with the invalid-argument error
exactly when the chart type is not one of the ten supported codes; every
unsupported code gets the `ValueError`, uniformly over the input positions (so
no per-planet work happens on failure); and in particular D2, D3, D4, D27,
D40, D45 are rejected even though `CHART_INFO` lists them. -/
theorem C7_unsupported_chart_types (chart_type : String)
    (planet_positions : List (String × PlanetEntry)) :
    ((∃ dc, calculate_divisional_chart chart_type planet_positions = Except.ok dc) ↔
      chart_type ∈ supportedChartTypes) ∧
    (chart_type ∉ supportedChartTypes →
      calculate_divisional_chart chart_type planet_positions =
        Except.error ("Unsupported chart type: " ++ chart_type)) ∧
    (∀ ct, ct ∈ ["D2", "D3", "D4", "D27", "D40", "D45"] →
      (CHART_INFO.lookup ct).isSome = true ∧
      calculate_divisional_chart ct planet_positions =
        Except.error ("Unsupported chart type: " ++ ct)) := by
  refine ⟨⟨?_, ?_⟩, ?_, ?_⟩
  · rintro ⟨dc, hdc⟩
    by_contra hmem
    simp only [calculate_divisional_chart, method_map_lookup_none chart_type hmem] at hdc
    exact absurd hdc (by simp)
  · intro hmem
    fin_cases hmem <;> exact ⟨_, rfl⟩
  · intro hmem
    simp only [calculate_divisional_chart, method_map_lookup_none chart_type hmem]
  · intro ct hct
    fin_cases hct <;> exact ⟨rfl, rfl⟩

theorem C7_unsupported_chart_types_witness :
    ((∃ dc, calculate_divisional_chart "D2" [] = Except.ok dc) ↔
      "D2" ∈ supportedChartTypes) ∧
    calculate_divisional_chart "D2" [] =
      Except.error ("Unsupported chart type: " ++ "D2") :=
  ⟨(C7_unsupported_chart_types "D2" []).1,
   (C7_unsupported_chart_types "D2" []).2.1 (by decide)⟩

/-- C8 counterexample: at Sun 359 and Mercury 1 the circular distance is 2,
which is below the 3-degree combustion bound the claim states, yet the emitted
yoga is labelled Moderate: the combustion check uses the raw absolute
difference 358, not the circular distance. -/
theorem C8_counterexample :
    circularDistance (planetEntry 359).longitude (planetEntry 1).longitude < 3 ∧
    (detect_budhaditya_yoga
      [("Sun", planetEntry 359), ("Mercury", planetEntry 1)]).map Yoga.strength =
      ["Moderate"] := by
  have h359 : (planetEntry 359).longitude = 359 := rfl
  have h1 : (planetEntry 1).longitude = 1 := rfl
  constructor
  · rw [h359, h1]
    norm_num [circularDistance]
  · have hpc : planets_in_conjunction (planetEntry 359) (planetEntry 1) 15 = true := by
      simp only [planets_in_conjunction, h359, h1, decide_eq_true_eq]
      norm_num
    have hdd : ¬((|(planetEntry 359).longitude - (planetEntry 1).longitude|) < 3) := by
      rw [h359, h1]
      norm_num
    simp [detect_budhaditya_yoga, List.lookup, hpc, hdd]

/-- C8 (amended): whenever Sun and Mercury are both present and their circular
angular distance is at most 15 degrees, exactly one Budhaditya Yoga is
emitted, and its strength is the weak/combust label precisely when the RAW
absolute longitude difference (no wrap-around) is below 3 degrees, and
Moderate otherwise. -/
theorem C8_budhaditya_yoga (planets : List (String × PlanetEntry))
    (sun mercury : PlanetEntry)
    (hs : planets.lookup "Sun" = some sun)
    (hm : planets.lookup "Mercury" = some mercury)
    (hconj : circularDistance sun.longitude mercury.longitude ≤ 15) :
    (detect_budhaditya_yoga planets).length = 1 ∧
    ∀ y ∈ detect_budhaditya_yoga planets,
      (y.strength = "Weak (Combust)" ↔ |sun.longitude - mercury.longitude| < 3) ∧
      (y.strength = "Moderate" ↔ ¬|sun.longitude - mercury.longitude| < 3) := by
  have hc : planets_in_conjunction sun mercury 15 = true := by
    simp only [planets_in_conjunction, decide_eq_true_eq]
    simpa [circularDistance] using hconj
  simp only [detect_budhaditya_yoga, hs, hm, hc, if_true]
  refine ⟨rfl, ?_⟩
  intro y hy
  simp only [List.mem_singleton] at hy
  subst hy
  by_cases hd : |sun.longitude - mercury.longitude| < 3
  · simp [hd]
  · simp [hd]

theorem C8_budhaditya_yoga_witness :
    (detect_budhaditya_yoga [("Sun", planetEntry 10), ("Mercury", planetEntry 12)]).length = 1 ∧
    ∀ y ∈ detect_budhaditya_yoga [("Sun", planetEntry 10), ("Mercury", planetEntry 12)],
      (y.strength = "Weak (Combust)" ↔
        |(planetEntry 10).longitude - (planetEntry 12).longitude| < 3) ∧
      (y.strength = "Moderate" ↔
        ¬|(planetEntry 10).longitude - (planetEntry 12).longitude| < 3) :=
  C8_budhaditya_yoga _ (planetEntry 10) (planetEntry 12) rfl rfl
    (by show circularDistance 10 12 ≤ 15; norm_num [circularDistance])

theorem dashaLoop_epoch_starts :
    ∀ p ∈ dashaLoop 0 (0 : ℚ) 0 9, (-10 : ℚ) < ((p.startD.floor : ℤ) : ℚ) := by
  intro p hp
  simp [dashaLoop, NAKSHATRA_LORDS, dasha_years, List.lookup] at hp
  rcases hp with rfl | rfl | rfl | rfl | rfl | rfl | rfl | rfl | rfl <;>
    norm_num [ratFloor_eq_floor]

theorem findCurrent_before (now : PyDatetime) (hn : now.aware = false) :
    ∀ ps : List Period, (∀ p ∈ ps, now.t < ((p.startD.floor : ℤ) : ℚ)) →
      findCurrentDasha now ps = Except.ok none := by
  intro ps
  induction ps with
  | nil => intro _; rfl
  | cons d rest ih =>
    intro h
    have hd := h d (List.mem_cons_self d rest)
    have hle : (decide (((d.startD.floor : ℤ) : ℚ) ≤ now.t)) = false := by
      simpa using not_le.mpr hd
    simp [findCurrentDasha, dtLE, hn, hle,
      ih (fun p hp => h p (List.mem_cons_of_mem d hp))]

/-- C9: a timezone-aware birth datetime makes the Dasha Engine raise a
`TypeError` (the stored period boundaries parse back as naive datetimes and
are compared against an aware wall clock), for every birth instant, Moon
nakshatra and wall clock — contradicting the claim that both aware and naive
datetimes are accepted.  For a naive birth datetime the claim's second half
does hold: an evaluation instant inside no period yields a null
`current_mahadasha`, not an error, exhibited at wall clock -10 before the
epoch birth. -/
theorem C9_dasha_timezone (t now : ℚ) (moon_nakshatra : Nak) :
    (calculate_vimshottari_dasha { t := t, aware := true } moon_nakshatra now =
      Except.error "TypeError: cannot compare offset-naive and offset-aware datetimes") ∧
    (Except.map DashaInfo.current_mahadasha
      (calculate_vimshottari_dasha { t := 0, aware := false }
        { nakshatra := "Ashwini", nakshatra_num := 1, pada := 1, lord := "Ketu" } (-10)) =
      Except.ok none) := by
  constructor
  · exact vimshottari_aware_error _ _ _ rfl
  · have hper : ∀ p ∈ vimshottariPeriods { t := 0, aware := false }
        { nakshatra := "Ashwini", nakshatra_num := 1, pada := 1, lord := "Ketu" },
        (-10 : ℚ) < ((p.startD.floor : ℤ) : ℚ) := by
      rw [show vimshottariPeriods { t := 0, aware := false }
        { nakshatra := "Ashwini", nakshatra_num := 1, pada := 1, lord := "Ketu" } =
          dashaLoop 0 0 0 9 from by
        simp only [vimshottariPeriods]
        rw [show NAKSHATRA_LORDS.indexOf
          (Nak.lord { nakshatra := "Ashwini", nakshatra_num := 1, pada := 1, lord := "Ketu" }) =
            0 from by decide]]
      exact dashaLoop_epoch_starts
    have hfc := findCurrent_before { t := -10, aware := false } rfl _ hper
    simp only [calculate_vimshottari_dasha]
    rw [show ({ t := -10, aware := PyDatetime.aware { t := 0, aware := false } } : PyDatetime) =
      { t := -10, aware := false } from rfl] at hfc ⊢
    rw [hfc]
    rfl

theorem findCurrent_head_hit (now : PyDatetime) (hn : now.aware = false) (d : Period)
    (rest : List Period) (h1 : ((d.startD.floor : ℤ) : ℚ) ≤ now.t)
    (h2 : now.t ≤ ((d.endD.floor : ℤ) : ℚ)) :
    findCurrentDasha now (d :: rest) = Except.ok (some d) := by
  simp [findCurrentDasha, dtLE, hn, h1, h2]

theorem chart_aware_error (e : Ephemeris) (birth_datetime : PyDatetime)
    (latitude longitude now : ℚ) (hb : birth_datetime.aware = true) :
    calculate_chart e birth_datetime latitude longitude now =
      Except.error "TypeError: cannot compare offset-naive and offset-aware datetimes" := by
  simp only [calculate_chart, vimshottari_aware_error _ _ now hb]

/-- C10 counterexample: with the same trivial ephemeris oracle and the same
inputs (naive epoch birth, latitude and longitude 0), running the chart at
wall clock 1 and at wall clock -10 produces different charts — the
`current_mahadasha` field follows `datetime.now`, so `calculate_chart` is not
a pure function of the birth data alone. -/
theorem C10_counterexample :
    calculate_chart zeroEphem { t := 0, aware := false } 0 0 1 ≠
      calculate_chart zeroEphem { t := 0, aware := false } 0 0 (-10) := by
  intro heq
  have hlord : ((planetEntryOf zeroEphem 1 (zeroEphem.julday 0)).nakshatra).lord = "Ketu" := by
    rw [show (planetEntryOf zeroEphem 1 (zeroEphem.julday 0)).nakshatra =
      calculate_nakshatra 0 from rfl]
    norm_num [calculate_nakshatra, pyInt, ratFloor_eq_floor, NAKSHATRA_LORDS]
  have hper : vimshottariPeriods { t := 0, aware := false }
      (planetEntryOf zeroEphem 1 (zeroEphem.julday 0)).nakshatra = dashaLoop 0 0 0 9 := by
    simp only [vimshottariPeriods, hlord]
    rw [show NAKSHATRA_LORDS.indexOf "Ketu" = 0 from by decide]
  have hexp : dashaLoop 0 (0 : ℚ) 0 9 =
      { lord := "Ketu", startD := 0, endD := 0 + 7 * 365.25, years := 7 } ::
        dashaLoop 0 (0 + 7 * 365.25) 1 8 := rfl
  have hc1 : findCurrentDasha { t := 1, aware := false } (dashaLoop 0 0 0 9) =
      Except.ok (some { lord := "Ketu", startD := 0, endD := 0 + 7 * 365.25, years := 7 }) := by
    rw [hexp]
    exact findCurrent_head_hit _ rfl _ _ (by norm_num [ratFloor_eq_floor])
      (by norm_num [ratFloor_eq_floor])
  have hc2 : findCurrentDasha { t := -10, aware := false } (dashaLoop 0 0 0 9) =
      Except.ok none :=
    findCurrent_before _ rfl _ dashaLoop_epoch_starts
  have hd1 : calculate_vimshottari_dasha { t := 0, aware := false }
      (planetEntryOf zeroEphem 1 (zeroEphem.julday 0)).nakshatra 1 =
      Except.ok { system := "Vimshottari"
                  periods := dashaLoop 0 0 0 9
                  current_mahadasha := some { lord := "Ketu", startD := 0,
                                              endD := 0 + 7 * 365.25, years := 7 } } := by
    simp only [calculate_vimshottari_dasha, hper]
    rw [show ({ t := 1, aware := PyDatetime.aware { t := 0, aware := false } } : PyDatetime) =
      { t := 1, aware := false } from rfl, hc1]
  have hd2 : calculate_vimshottari_dasha { t := 0, aware := false }
      (planetEntryOf zeroEphem 1 (zeroEphem.julday 0)).nakshatra (-10) =
      Except.ok { system := "Vimshottari"
                  periods := dashaLoop 0 0 0 9
                  current_mahadasha := none } := by
    simp only [calculate_vimshottari_dasha, hper]
    rw [show ({ t := -10, aware := PyDatetime.aware { t := 0, aware := false } } : PyDatetime) =
      { t := -10, aware := false } from rfl, hc2]
  have hproj := congrArg (Except.map (fun c => c.dasha.current_mahadasha)) heq
  simp only [calculate_chart, hd1, hd2, Except.map] at hproj
  exact absurd hproj (by simp)

/-- C10 (amended): for a fixed ephemeris oracle and fixed inputs, everything
in the chart output except the `current_mahadasha` field is independent of the
evaluation instant: two runs at arbitrary wall clocks agree after erasing that
one field (and a run is fully determined by inputs plus the wall clock). -/
theorem C10_deterministic_modulo_current (e : Ephemeris) (birth_datetime : PyDatetime)
    (latitude longitude now1 now2 : ℚ) :
    Except.map Chart.withoutCurrent
        (calculate_chart e birth_datetime latitude longitude now1) =
      Except.map Chart.withoutCurrent
        (calculate_chart e birth_datetime latitude longitude now2) := by
  cases hb : birth_datetime.aware with
  | false =>
    obtain ⟨c1, h1⟩ := vimshottari_naive_ok birth_datetime
      (planetEntryOf e 1 (e.julday birth_datetime.t)).nakshatra now1 hb
    obtain ⟨c2, h2⟩ := vimshottari_naive_ok birth_datetime
      (planetEntryOf e 1 (e.julday birth_datetime.t)).nakshatra now2 hb
    simp only [calculate_chart, h1, h2, Except.map, Chart.withoutCurrent]
  | true =>
    rw [chart_aware_error e birth_datetime latitude longitude now1 hb,
      chart_aware_error e birth_datetime latitude longitude now2 hb]

end Astrohaze
